import Mathlib

/-!
Shallow embedding of the NodesCrypt decision core:
`src/proxy/filter_proxy.js` (analysis and decision path),
`src/streamer/ws_streamer.js` (token-transfer detection and the
`SecurityAudit` contracts concatenated into that file),
`src/contracts/NodescryptAudit.sol` (on-chain audit trail), and the
mitigation engine of spec §4.5 (whose Python source is not part of the
repository snapshot).

JavaScript numbers are modelled as rationals extended with a NaN point;
string-valued numeric fields are abstracted to their `parseFloat` image.
Solidity `uint256` counters are modelled as `Nat` (they are monotone
counters bounded by the number of calls, so wrap-around is unreachable),
and `bytes32` / `address` values as abstract `Nat` identifiers.  Reverting
calls are modelled as `Except`: an `error` result carries no state, which
is exactly the EVM's roll-back-on-revert semantics.
-/

namespace NodesCrypt

/-- A JavaScript number: either NaN or a rational value.  (The program only
ever produces finite values or NaN; infinities do not arise on the modelled
paths.) -/
inductive JSNum where
  | nan : JSNum
  | num : ℚ → JSNum
deriving DecidableEq, Repr

/-- JavaScript `<`: any comparison with NaN is false. -/
def JSNum.lt : JSNum → JSNum → Bool
  | .num a, .num b => decide (a < b)
  | _, _ => false

/-- JavaScript `>`: any comparison with NaN is false. -/
def JSNum.gt : JSNum → JSNum → Bool
  | .num a, .num b => decide (b < a)
  | _, _ => false

/-- JavaScript truthiness of a number: `0` and `NaN` are falsy. -/
def JSNum.truthy : JSNum → Bool
  | .nan => false
  | .num q => decide (q ≠ 0)

/-- Membership in the unit interval `[0,1]` (false for NaN). -/
def JSNum.inUnit : JSNum → Bool
  | .nan => false
  | .num q => decide (0 ≤ q ∧ q ≤ 1)

/-! ## `src/proxy/filter_proxy.js` -/

/-- Action constants of `filter_proxy.js` (`const ACTIONS = {...}`). -/
def ACTIONS.PASS : Nat := 0

/-- `ACTIONS.DELAY` of `filter_proxy.js`. -/
def ACTIONS.DELAY : Nat := 1

/-- `ACTIONS.DROP` of `filter_proxy.js`. -/
def ACTIONS.DROP : Nat := 2

/-- `ACTIONS.ESCALATE` of `filter_proxy.js`. -/
def ACTIONS.ESCALATE : Nat := 3

/-- The `tx.data` field as seen by `analyzeTransaction`: absent/falsy, a
string of some length, or a truthy non-string value (whose `.length` is
`undefined`, so `(tx.data.length - 2) / 2` evaluates to NaN without
throwing). -/
inductive DataField where
  | falsy : DataField
  | str : Nat → DataField
  | other : DataField
deriving DecidableEq, Repr

/-- The `tx.to` field: nullish, a string, or a truthy non-string value on
which `.toLowerCase()` throws a TypeError (caught by the outer `try`). -/
inductive ToField where
  | nullish : ToField
  | str : String → ToField
  | nonString : ToField
deriving DecidableEq, Repr

/-- A transaction object as consumed by `analyzeTransaction`.  Numeric
string fields are abstracted to their `parseFloat` image: `none` is an
absent/falsy field (which the code replaces by `"0"`), `some v` a truthy
field parsing to `v` (possibly NaN). -/
structure Tx where
  value : Option JSNum
  gasPrice : Option JSNum
  maxFeePerGas : Option JSNum
  data : DataField
  «to» : ToField
deriving DecidableEq, Repr

/-- `parseFloat(field || "0")`. -/
def parsedOrZero (v : Option JSNum) : JSNum := v.getD (JSNum.num 0)

/-- The feature object built at the top of `analyzeTransaction`. -/
structure Features where
  value : JSNum
  gas_price : JSNum
  data_size : JSNum
  «to» : Option String
deriving DecidableEq, Repr

/-- The feature extraction block of `analyzeTransaction` (filter_proxy.js
lines 52-57).  It throws (is `Except.error`) exactly when `tx.to` is a
truthy non-string, the only sub-expression that can raise. -/
def extractFeatures (tx : Tx) : Except Unit Features :=
  let value := parsedOrZero tx.value
  let gas_price := parsedOrZero (tx.gasPrice <|> tx.maxFeePerGas)
  let data_size : JSNum :=
    match tx.data with
    | .falsy => .num 0
    | .str n => .num (mkRat ((n : ℤ) - 2) 2)
    | .other => .nan
  match tx.«to» with
  | .nonString => .error ()
  | .nullish => .ok ⟨value, gas_price, data_size, none⟩
  | .str s =>
      let l := s.map Char.toLower
      .ok ⟨value, gas_price, data_size, if l.isEmpty then none else some l⟩

/-- `risk_level` strings returned by `analyzeTransaction`. -/
inductive RiskLevel where
  | HIGH
  | LOW
  | UNKNOWN
  | ERROR
deriving DecidableEq, Repr

/-- The analysis object returned by `analyzeTransaction`. -/
structure Analysis where
  spam_score : JSNum
  mev_risk : JSNum
  risk_level : RiskLevel
deriving DecidableEq, Repr

/-- The feature vector POSTed to the ML service (`features:` array of the
axios call).  It does not influence the returned analysis, which depends
only on the service's reply. -/
def mlFeatureVector (f : Features) : List JSNum :=
  [ (match f.gas_price with | .nan => .nan | .num q => .num (q / 1000000000)),
    (match f.value with | .nan => .nan | .num q => .num (q / 1000000000000000000)),
    f.data_size,
    .num 0,
    .num 1,
    (match f.gas_price with | .nan => .nan | .num q => .num (q / 1000000000)) ]

/-- `analyzeTransaction` of `filter_proxy.js` (lines 49-88).  `reply` is
the outcome of the axios POST to `${ML_SERVICE}/predict/spam` with its
100 ms timeout: `none` when the call threw (timeout, network failure, or a
malformed response object), `some p` when it succeeded and
`response.data.prediction` evaluated to `p` (`JSNum.nan` also covers an
absent/undefined `prediction` field, which behaves identically under
`|| 0` and `> 0.7`). -/
def analyzeTransaction (tx : Tx) (reply : Option JSNum) : Analysis :=
  match extractFeatures tx with
  | .error _ => ⟨.num 0, .num 0, .ERROR⟩
  | .ok features =>
    match reply with
    | some p =>
        ⟨if p.truthy then p else .num 0,
         .num 0,
         if p.gt (.num (mkRat 7 10)) then .HIGH else .LOW⟩
    | none =>
        ⟨if features.gas_price.lt (.num 1000000000) then .num (mkRat 7 10) else .num (mkRat 1 10),
         .num 0,
         .UNKNOWN⟩

/-- `decideAction` of `filter_proxy.js` (lines 93-111).  `enableFiltering`
is the module-level constant `ENABLE_FILTERING` captured at startup. -/
def decideAction (enableFiltering : Bool) (analysis : Analysis) : Nat :=
  if !enableFiltering then ACTIONS.PASS
  else if analysis.spam_score.gt (.num (mkRat 9 10)) then ACTIONS.DROP
  else if analysis.spam_score.gt (.num (mkRat 7 10)) then ACTIONS.DELAY
  else if analysis.mev_risk.gt (.num (mkRat 8 10)) then ACTIONS.ESCALATE
  else ACTIONS.PASS

/-- The proxy process state relevant to the filtering flag:
`enableFilteringConst` is the module-level
`const ENABLE_FILTERING = process.env.ENABLE_FILTERING === "true"`,
evaluated once at startup and read by `decideAction`;
`envEnableFiltering` is the mutable `process.env.ENABLE_FILTERING`
entry, which is what the admin endpoint writes. -/
structure ProxyState where
  enableFilteringConst : Bool
  envEnableFiltering : Option String
deriving DecidableEq, Repr

/-- Module load of `filter_proxy.js`: the `const` captures whether
`process.env.ENABLE_FILTERING` is exactly `"true"`. -/
def proxyStartup (env : Option String) : ProxyState :=
  ⟨env == some "true", env⟩

/-- The `/admin/toggle-filter` handler (filter_proxy.js lines 236-244) for
a boolean `enabled`: it assigns `process.env.ENABLE_FILTERING` but the
`const ENABLE_FILTERING` is never re-read, so the constant consulted by
`decideAction` is unchanged. -/
def toggleFilter (s : ProxyState) (enabled : Bool) : ProxyState :=
  ⟨s.enableFilteringConst, some (if enabled then "true" else "false")⟩

/-! ## `src/streamer/ws_streamer.js`: `detectTokenTransfer` -/

/-- The object returned by `detectTokenTransfer`; in the early-return case
the `selector` property is absent (`none`).  Strings are handled at the
level of their character lists (`String.data`), since the code only
slices, lower-cases and compares them. -/
structure TokenInfo where
  is_erc20 : Bool
  is_erc721 : Bool
  selector : Option (List Char)
deriving DecidableEq, Repr

/-- Selector constant `ERC20_TRANSFER` of `detectTokenTransfer`. -/
def ERC20_TRANSFER : String := "0xa9059cbb"

/-- Selector constant `ERC20_APPROVE` of `detectTokenTransfer`. -/
def ERC20_APPROVE : String := "0x095ea7b3"

/-- Selector constant `ERC20_TRANSFER_FROM` of `detectTokenTransfer`. -/
def ERC20_TRANSFER_FROM : String := "0x23b872dd"

/-- Selector constant `ERC721_SAFE_TRANSFER` of `detectTokenTransfer`. -/
def ERC721_SAFE_TRANSFER : String := "0x42842e0e"

/-- Selector constant `ERC721_TRANSFER` of `detectTokenTransfer`. -/
def ERC721_TRANSFER : String := "0xb88d4fde"

/-- `detectTokenTransfer` of `ws_streamer.js` (lines 91-108).  `none`
models a nullish `data` argument; the empty string is falsy in JS and is
also covered by the `d.length < 10` branch, so both readings agree.
`toLowerCase` agrees with `Char.toLower` on the ASCII strings involved. -/
def detectTokenTransfer (data : Option String) : TokenInfo :=
  match data with
  | none => ⟨false, false, none⟩
  | some d =>
    if d.data.length < 10 then ⟨false, false, none⟩
    else
      let selector := (d.data.take 10).map Char.toLower
      ⟨[ERC20_TRANSFER.data, ERC20_APPROVE.data,
          ERC20_TRANSFER_FROM.data].contains selector,
       [ERC721_SAFE_TRANSFER.data, ERC721_TRANSFER.data].contains selector,
       some selector⟩

/-! ## `SecurityAudit` (AccessControl variant, concatenated into
`src/streamer/ws_streamer.js`, lines 446-574; `logIncident` at 485-507) -/

/-- Storage of the AccessControl `SecurityAudit` contract: the
`loggedAt` mapping (`bytes32 → uint256`, default `0`), the two public
counters, and the `PUBLISHER_ROLE` membership granted via AccessControl.
`registeredModels` is irrelevant to `logIncident` and omitted. -/
structure SAState where
  loggedAt : Nat → Nat
  totalIncidents : Nat
  lastIncidentTime : Nat
  publisher : Nat → Bool

/-- Deployment of `SecurityAudit(admin)`: empty mapping, zero counters,
`PUBLISHER_ROLE` held by `admin` alone. -/
def SAState.init (admin : Nat) : SAState :=
  ⟨fun _ => 0, 0, 0, fun a => a == admin⟩

/-- `SecurityAudit.logIncident` (ws_streamer.js concatenation, lines
485-507).  `sender` is `msg.sender`, `timestamp` is `block.timestamp`
(callers pass a positive value; genesis aside, `block.timestamp > 0`).
A revert is `Except.error` with the require message; the `modelId`
argument only feeds the emitted event. -/
def SecurityAudit.logIncident (s : SAState)
    (sender incidentId action modelId riskScore timestamp : Nat) :
    Except String SAState :=
  if s.publisher sender then
    if s.loggedAt incidentId = 0 then
      if action ≤ 3 then
        if riskScore ≤ 100 then
          .ok ⟨fun x => if x = incidentId then timestamp else s.loggedAt x,
               s.totalIncidents + 1, timestamp, s.publisher⟩
        else .error "Invalid risk score"
      else .error "Invalid action"
    else .error "Already logged"
  else .error "AccessControl: missing role"

/-- Transaction-level semantics of a `SecurityAudit.logIncident` call: a
revert rolls the contract state back, so the chain state after the call is
the post-state on success and the unchanged pre-state on revert. -/
def SecurityAudit.applyLogIncident (s : SAState)
    (sender incidentId action modelId riskScore timestamp : Nat) : SAState :=
  match SecurityAudit.logIncident s sender incidentId action modelId riskScore timestamp with
  | .ok s2 => s2
  | .error _ => s

/-- One iteration of the AccessControl `SecurityAudit.logIncidentBatch`
loop (ws_streamer.js concatenation, lines 523-537): an id already in
`loggedAt` is silently skipped; a fresh one is stamped and counted.
`lastIncidentTime` is not touched inside the loop (the function assigns
it once after the loop). -/
def SecurityAudit.batchStep (timestamp : Nat) (s : SAState)
    (incidentId : Nat) : SAState :=
  if s.loggedAt incidentId = 0 then
    ⟨fun x => if x = incidentId then timestamp else s.loggedAt x,
     s.totalIncidents + 1, s.lastIncidentTime, s.publisher⟩
  else s

/-- `SecurityAudit.logIncidentBatch` (ws_streamer.js concatenation, lines
513-539): after the role and require checks, the loop folds `batchStep`
over the ids (the `actions`, `modelId` and `riskScores` arguments only
feed the emitted events) and then sets `lastIncidentTime` once. -/
def SecurityAudit.logIncidentBatch (s : SAState) (sender : Nat)
    (incidentIds actions : List Nat) (modelId : Nat)
    (riskScores : List Nat) (timestamp : Nat) : Except String SAState :=
  if s.publisher sender then
    if incidentIds.length = actions.length then
      if incidentIds.length = riskScores.length then
        if incidentIds.length ≤ 50 then
          let s2 := List.foldl (SecurityAudit.batchStep timestamp) s
            incidentIds
          .ok ⟨s2.loggedAt, s2.totalIncidents, timestamp, s2.publisher⟩
        else .error "Max 50 per batch"
      else .error "Array mismatch"
    else .error "Array mismatch"
  else .error "AccessControl: missing role"

/-! ## `SecurityAudit` (INCO variant, concatenated into
`src/streamer/ws_streamer.js`, lines 592-699; `logIncident` at 635-656) -/

/-- An `Incident` struct of the INCO `SecurityAudit` contract.  The
mapping default is the all-zero struct with `exists = false`. -/
structure IncoIncident where
  incidentId : Nat
  actionTaken : Nat
  riskScore : Nat
  timestamp : Nat
  existsFlag : Bool
deriving DecidableEq, Repr

/-- Default value of the `incidents` mapping of the INCO contract. -/
def IncoIncident.default : IncoIncident := ⟨0, 0, 0, 0, false⟩

/-- Storage of the INCO `SecurityAudit` contract. -/
structure IncoState where
  incidents : Nat → IncoIncident
  totalIncidents : Nat
  lastIncidentTime : Nat
  owner : Nat
  authorizedAuditors : Nat → Bool

/-- Deployment of the INCO `SecurityAudit`: `owner = msg.sender`, empty
mapping and auditor set, zero counters. -/
def IncoState.init (deployer : Nat) : IncoState :=
  ⟨fun _ => IncoIncident.default, 0, 0, deployer, fun _ => false⟩

/-- `logIncident` of the INCO `SecurityAudit` (ws_streamer.js
concatenation, lines 635-656), guarded by `onlyAuthorized`. -/
def IncoAudit.logIncident (s : IncoState)
    (sender incidentId action riskScore timestamp : Nat) :
    Except String IncoState :=
  if sender = s.owner ∨ s.authorizedAuditors sender then
    if ¬ (s.incidents incidentId).existsFlag then
      if action ≤ 3 then
        if riskScore ≤ 100 then
          .ok ⟨fun x => if x = incidentId then
                 ⟨incidentId, action, riskScore, timestamp, true⟩
               else s.incidents x,
               s.totalIncidents + 1, timestamp, s.owner, s.authorizedAuditors⟩
        else .error "Invalid risk score"
      else .error "Invalid action"
    else .error "Incident already logged"
  else .error "Not authorized"

/-- Transaction-level semantics of the INCO `logIncident` call: state is
unchanged on revert. -/
def IncoAudit.applyLogIncident (s : IncoState)
    (sender incidentId action riskScore timestamp : Nat) : IncoState :=
  match IncoAudit.logIncident s sender incidentId action riskScore timestamp with
  | .ok s2 => s2
  | .error _ => s

/-! ## `src/contracts/NodescryptAudit.sol` -/

/-- An `Incident` struct of `NodescryptAudit`.  The mapping default is the
all-zero struct; `logIncident` uses `timestamp == 0` as the
"not yet logged" test. -/
structure NAIncident where
  incidentId : Nat
  action : Nat
  modelId : Nat
  timestamp : Nat
  reporter : Nat
deriving DecidableEq, Repr

/-- Default value of the `incidents` mapping of `NodescryptAudit`. -/
def NAIncident.default : NAIncident := ⟨0, 0, 0, 0, 0⟩

/-- Storage of `NodescryptAudit` (NodescryptAudit.sol lines 26-34). -/
structure NAState where
  incidents : Nat → NAIncident
  incidentIds : List Nat
  authorizedNodes : Nat → Bool
  admin : Nat
  totalIncidents : Nat
  totalDropped : Nat
  totalDelayed : Nat

/-- The `NodescryptAudit` constructor: `admin = msg.sender` and the
deployer is authorized. -/
def NAState.init (deployer : Nat) : NAState :=
  ⟨fun _ => NAIncident.default, [], fun a => a == deployer, deployer, 0, 0, 0⟩

/-- `NodescryptAudit.logIncident` (NodescryptAudit.sol lines 106-129),
guarded by `onlyAuthorized`.  `sender` is `msg.sender`, `timestamp` is
`block.timestamp` (positive on any real chain). -/
def NodescryptAudit.logIncident (s : NAState)
    (sender incidentId action modelId timestamp : Nat) :
    Except String NAState :=
  if s.authorizedNodes sender ∨ sender = s.admin then
    if (s.incidents incidentId).timestamp = 0 then
      if action ≤ 3 then
        .ok ⟨fun x => if x = incidentId then
               ⟨incidentId, action, modelId, timestamp, sender⟩
             else s.incidents x,
             s.incidentIds ++ [incidentId],
             s.authorizedNodes, s.admin,
             s.totalIncidents + 1,
             s.totalDropped + (if action = 2 then 1 else 0),
             s.totalDelayed + (if action = 1 then 1 else 0)⟩
      else .error "Invalid action"
    else .error "Incident exists"
  else .error "Not authorized"

/-- Transaction-level semantics of `NodescryptAudit.logIncident`: state is
unchanged on revert. -/
def NodescryptAudit.applyLogIncident (s : NAState)
    (sender incidentId action modelId timestamp : Nat) : NAState :=
  match NodescryptAudit.logIncident s sender incidentId action modelId timestamp with
  | .ok s2 => s2
  | .error _ => s

/-- One iteration of the `logIncidentBatch` loop (NodescryptAudit.sol
lines 141-159) on the entry `(ids[i], (actions[i], modelIds[i]))`: the
entry is recorded only when the id is fresh and the action valid, and is
silently skipped otherwise. -/
def NodescryptAudit.batchStep (sender timestamp : Nat) (s : NAState)
    (e : Nat × Nat × Nat) : NAState :=
  if (s.incidents e.1).timestamp = 0 ∧ e.2.1 ≤ 3 then
    ⟨fun x => if x = e.1 then ⟨e.1, e.2.1, e.2.2, timestamp, sender⟩
      else s.incidents x,
     s.incidentIds ++ [e.1],
     s.authorizedNodes, s.admin,
     s.totalIncidents + 1,
     s.totalDropped + (if e.2.1 = 2 then 1 else 0),
     s.totalDelayed + (if e.2.1 = 1 then 1 else 0)⟩
  else s

/-- `NodescryptAudit.logIncidentBatch` (NodescryptAudit.sol lines
134-160): after the authorization and length requires, the loop body is a
left fold of `batchStep` over the zipped argument arrays.  (`List.zip`
truncates, but under the length require the three lists align exactly.) -/
def NodescryptAudit.logIncidentBatch (s : NAState) (sender : Nat)
    (ids actions modelIds : List Nat) (timestamp : Nat) :
    Except String NAState :=
  if s.authorizedNodes sender ∨ sender = s.admin then
    if ids.length = actions.length ∧ actions.length = modelIds.length then
      .ok (List.foldl (NodescryptAudit.batchStep sender timestamp) s
            (ids.zip (actions.zip modelIds)))
    else .error "Length mismatch"
  else .error "Not authorized"

/-- Transaction-level semantics of `logIncidentBatch`: state is unchanged
on revert. -/
def NodescryptAudit.applyLogIncidentBatch (s : NAState) (sender : Nat)
    (ids actions modelIds : List Nat) (timestamp : Nat) : NAState :=
  match NodescryptAudit.logIncidentBatch s sender ids actions modelIds timestamp with
  | .ok s2 => s2
  | .error _ => s

/-- The counter/array consistency invariant of `NodescryptAudit`:
`totalIncidents` tracks `incidentIds.length`, and the per-action counters
never exceed the total. -/
def NodescryptAudit.Inv (s : NAState) : Prop :=
  s.totalIncidents = s.incidentIds.length ∧
  s.totalDropped + s.totalDelayed ≤ s.totalIncidents

/-! ## Mitigation engine (spec §4.5)

Modelled from the spec: the Mitigation Executor (`mitigation/engine.py`
and `mitigation/control_loop.py`, referenced by the repository README and
architecture documents) is not included under `src/`; only its
action/state table survives in the documentation.  The definitions below
follow §4.5 of the specification literally: the action→state table with
default deltas over a `NORMAL` baseline, idempotence of repeated actions
(each action *sets* the state derived from the baseline rather than
stacking), and full reset on `DO_NOTHING`. -/

/-- Modelled from the spec: the fixed action set of §4.4. -/
inductive Action where
  | DO_NOTHING
  | RAISE_FEE_THRESHOLD
  | DEPRIORITIZE_SPAM
  | DEFENSIVE_MODE
deriving DecidableEq, Repr

/-- Modelled from the spec: the mitigation modes of §3 (MitigationState). -/
inductive Mode where
  | NORMAL
  | FEE_FILTER
  | SPAM_DEPRIORITIZATION
  | DEFENSIVE
deriving DecidableEq, Repr

/-- Modelled from the spec: the process-wide MitigationState of §3 —
current mode, minimum fee floor, and broadcast delay in milliseconds. -/
structure MitigationState where
  mode : Mode
  min_fee : ℚ
  delay_ms : Nat
deriving DecidableEq, Repr

/-- Modelled from the spec: the `NORMAL` baseline state (fee floor at the
configured baseline, no delay). -/
def baselineState (baseline : ℚ) : MitigationState :=
  ⟨.NORMAL, baseline, 0⟩

/-- Modelled from the spec: `apply(action) -> MitigationState` of §4.5.
Each action drives the state to the table row derived from the baseline
(`DO_NOTHING +0/0ms`, `RAISE_FEE_THRESHOLD +10/0ms`,
`DEPRIORITIZE_SPAM +0/500ms`, `DEFENSIVE_MODE +25/1000ms`); setting
rather than accumulating realizes the §4.5 idempotence bullet, and
`DO_NOTHING` realizes the full-reset bullet. -/
def applyAction (baseline : ℚ) (s : MitigationState) (a : Action) :
    MitigationState :=
  match a with
  | .DO_NOTHING => ⟨.NORMAL, baseline, 0⟩
  | .RAISE_FEE_THRESHOLD => ⟨.FEE_FILTER, baseline + 10, 0⟩
  | .DEPRIORITIZE_SPAM => ⟨.SPAM_DEPRIORITIZATION, baseline, 500⟩
  | .DEFENSIVE_MODE => ⟨.DEFENSIVE, baseline + 25, 1000⟩

/-! ## Claims -/

/-- Claim C1, counterexample: for the classifier reply `prediction = 3/2`
on a plain transaction, `analyzeTransaction` returns spam score `3/2`
unchanged — outside `[0,1]` — and labels it `HIGH`, not an error, so the
claimed clamping and error reporting do not exist in the code. -/
theorem C1_counterexample :
    (analyzeTransaction ⟨none, none, none, .falsy, .nullish⟩
        (some (.num (mkRat 3 2)))).spam_score = .num (mkRat 3 2) ∧
    (analyzeTransaction ⟨none, none, none, .falsy, .nullish⟩
        (some (.num (mkRat 3 2)))).spam_score.inUnit = false ∧
    (analyzeTransaction ⟨none, none, none, .falsy, .nullish⟩
        (some (.num (mkRat 3 2)))).risk_level ≠ .ERROR := by
  decide

/-- Claim C1, amended: on a successful classifier reply,
`analyzeTransaction` returns the prediction unchanged whenever it is
truthy (falsy predictions — `0`, `NaN`, or a missing field — become `0`)
and reports no error; out-of-range predictions are passed through
silently, with `[0,1]` guaranteed only on the heuristic fallback path. -/
theorem C1_amended_no_clamp (tx : Tx) (f : Features) (p : JSNum)
    (h : extractFeatures tx = .ok f) :
    (analyzeTransaction tx (some p)).spam_score =
      (if p.truthy then p else .num 0) ∧
    (analyzeTransaction tx (some p)).risk_level ≠ .ERROR := by
  unfold analyzeTransaction
  rw [h]
  refine ⟨rfl, ?_⟩
  dsimp only
  split <;> simp

/-- Claim C1, witness for the amended theorem at a concrete input. -/
theorem C1_amended_witness :
    (analyzeTransaction ⟨none, none, none, .falsy, .nullish⟩
        (some (.num 2))).spam_score =
      (if (JSNum.num 2).truthy then JSNum.num 2 else .num 0) ∧
    (analyzeTransaction ⟨none, none, none, .falsy, .nullish⟩
        (some (.num 2))).risk_level ≠ .ERROR :=
  C1_amended_no_clamp ⟨none, none, none, .falsy, .nullish⟩
    ⟨.num 0, .num 0, .num 0, none⟩ (.num 2) rfl

/-- Claim C3, code-bug evidence: starting the proxy with
`ENABLE_FILTERING="true"` and then disabling filtering through
`/admin/toggle-filter` updates `process.env` (the endpoint even answers
`{filtering: false}`), yet `decideAction` still reads the startup `const`
and drops a spam-score-0.95 transaction instead of passing it. -/
theorem C3_toggle_no_effect :
    (toggleFilter (proxyStartup (some "true")) false).envEnableFiltering =
      some "false" ∧
    decideAction
      (toggleFilter (proxyStartup (some "true")) false).enableFilteringConst
      ⟨.num (mkRat 19 20), .num 0, .HIGH⟩ = ACTIONS.DROP ∧
    ACTIONS.DROP ≠ ACTIONS.PASS := by
  decide

/-- Claim C4: when the classifier call fails or times out (`reply = none`)
the analysis still returns a spam score inside `[0,1]`, and on every input
whose feature extraction succeeds that score is exactly the deterministic
heuristic: `0.7` when the gas price is below 1 gwei, `0.1` otherwise. -/
theorem C4_fallback_heuristic (tx : Tx) :
    (analyzeTransaction tx none).spam_score.inUnit = true ∧
    (∀ f, extractFeatures tx = .ok f →
      (analyzeTransaction tx none).spam_score =
        (if f.gas_price.lt (.num 1000000000) then .num (mkRat 7 10)
         else .num (mkRat 1 10))) := by
  constructor
  · cases hext : extractFeatures tx with
    | error e => unfold analyzeTransaction; rw [hext]; dsimp only; decide
    | ok f =>
        unfold analyzeTransaction
        rw [hext]
        dsimp only
        split <;> decide
  · intro f hf
    unfold analyzeTransaction
    rw [hf]

/-- Claim C4, witness at a concrete input (all fields absent, so the
extracted gas price is `0 < 1` gwei and the heuristic yields `0.7`). -/
theorem C4_fallback_witness :
    (analyzeTransaction ⟨none, none, none, .falsy, .nullish⟩
        none).spam_score.inUnit = true ∧
    (analyzeTransaction ⟨none, none, none, .falsy, .nullish⟩
        none).spam_score =
      (if (JSNum.num 0).lt (.num 1000000000) then JSNum.num (mkRat 7 10)
       else JSNum.num (mkRat 1 10)) :=
  ⟨(C4_fallback_heuristic ⟨none, none, none, .falsy, .nullish⟩).1,
   (C4_fallback_heuristic ⟨none, none, none, .falsy, .nullish⟩).2
     ⟨.num 0, .num 0, .num 0, none⟩ rfl⟩

/-- Claim C5: the analysis step is total on malformed input — missing
numeric fields (`value`, `gasPrice`/`maxFeePerGas`, `data`) default to
`0` in the extracted features; if feature extraction itself throws, the
caught exception still yields the well-formed
`{spam_score: 0, mev_risk: 0, risk_level: "ERROR"}` result; and in every
case the analysis feeds `decideAction` and receives one of the four
actions, so a malformed transaction never blocks the pipeline. -/
theorem C5_malformed_total (tx : Tx) (reply : Option JSNum) (flag : Bool) :
    (∀ f, extractFeatures tx = .ok f →
      (tx.value = none → f.value = .num 0) ∧
      (tx.gasPrice = none → tx.maxFeePerGas = none → f.gas_price = .num 0) ∧
      (tx.data = .falsy → f.data_size = .num 0)) ∧
    (∀ e, extractFeatures tx = .error e →
      analyzeTransaction tx reply = ⟨.num 0, .num 0, .ERROR⟩) ∧
    decideAction flag (analyzeTransaction tx reply) ≤ 3 := by
  refine ⟨?_, ?_, ?_⟩
  · intro f hf
    cases hto : tx.«to» <;>
      simp only [extractFeatures, hto] at hf
    case nonString => exact Except.noConfusion hf
    case nullish =>
      cases hf
      refine ⟨?_, ?_, ?_⟩
      · intro hv; simp [parsedOrZero, hv]
      · intro hg hm; simp [parsedOrZero, hg, hm]
      · intro hd; simp [hd]
    case str s =>
      cases hf
      refine ⟨?_, ?_, ?_⟩
      · intro hv; simp [parsedOrZero, hv]
      · intro hg hm; simp [parsedOrZero, hg, hm]
      · intro hd; simp [hd]
  · intro e he
    unfold analyzeTransaction
    rw [he]
  · unfold decideAction
    repeat' split
    all_goals decide

/-- Claim C5, witness: a transaction whose `to` field makes extraction
throw still produces the error analysis and a valid action, and absent
fields default to zero. -/
theorem C5_malformed_witness :
    analyzeTransaction ⟨none, none, none, .falsy, .nonString⟩ none =
      ⟨.num 0, .num 0, .ERROR⟩ ∧
    decideAction true
      (analyzeTransaction ⟨none, none, none, .falsy, .nonString⟩ none) ≤ 3 ∧
    (⟨JSNum.num 0, .num 0, .num 0, none⟩ : Features).value = JSNum.num 0 :=
  ⟨(C5_malformed_total ⟨none, none, none, .falsy, .nonString⟩ none true).2.1 () rfl,
   (C5_malformed_total ⟨none, none, none, .falsy, .nonString⟩ none true).2.2,
   (((C5_malformed_total ⟨none, none, none, .falsy, .nullish⟩ none true).1
      ⟨.num 0, .num 0, .num 0, none⟩ rfl).1 rfl)⟩

/-- Claim C2, counterexample: after admin (address 1) logs incident id 7,
a second `logIncident` with the same id reverts — with
`"Incident exists"` in `NodescryptAudit` and `"Already logged"` in the
`SecurityAudit` variant — an error, not a duplicate acknowledgment. -/
theorem C2_counterexample :
    NodescryptAudit.logIncident
        (NodescryptAudit.applyLogIncident (NAState.init 1) 1 7 1 5 100)
        1 7 1 5 101 = .error "Incident exists" ∧
    SecurityAudit.logIncident
        (SecurityAudit.applyLogIncident (SAState.init 1) 1 7 1 5 50 100)
        1 7 1 5 50 101 = .error "Already logged" :=
  ⟨rfl, rfl⟩

/-- Claim C2, amended: in both audit contracts a repeated `logIncident`
with an already-logged incident id reverts — `"Incident exists"` in
`NodescryptAudit`, `"Already logged"` in `SecurityAudit` — leaving all
contract state (including the stored incident record) unchanged;
duplicates are treated as success only by the `logIncidentBatch` entry
points, which silently skip the already-logged id and return with the
incident record and counters intact (the `SecurityAudit` batch still
refreshes `lastIncidentTime`). -/
theorem C2_amended_duplicate_reverts (s : NAState) (sa : SAState)
    (sender incidentId action modelId riskScore timestamp : Nat)
    (hauth : s.authorizedNodes sender ∨ sender = s.admin)
    (hdup : (s.incidents incidentId).timestamp ≠ 0)
    (hpub : sa.publisher sender = true)
    (hdupSA : sa.loggedAt incidentId ≠ 0) :
    NodescryptAudit.logIncident s sender incidentId action modelId timestamp =
      .error "Incident exists" ∧
    NodescryptAudit.applyLogIncident s sender incidentId action modelId
      timestamp = s ∧
    NodescryptAudit.logIncidentBatch s sender [incidentId] [action] [modelId]
      timestamp = .ok s ∧
    SecurityAudit.logIncident sa sender incidentId action modelId riskScore
      timestamp = .error "Already logged" ∧
    SecurityAudit.applyLogIncident sa sender incidentId action modelId
      riskScore timestamp = sa ∧
    SecurityAudit.logIncidentBatch sa sender [incidentId] [action] modelId
      [riskScore] timestamp =
      .ok ⟨sa.loggedAt, sa.totalIncidents, timestamp, sa.publisher⟩ := by
  have hlog : NodescryptAudit.logIncident s sender incidentId action modelId
      timestamp = .error "Incident exists" := by
    unfold NodescryptAudit.logIncident
    rw [if_pos hauth, if_neg hdup]
  have hlogSA : SecurityAudit.logIncident sa sender incidentId action modelId
      riskScore timestamp = .error "Already logged" := by
    unfold SecurityAudit.logIncident
    rw [if_pos hpub, if_neg hdupSA]
  refine ⟨hlog, ?_, ?_, hlogSA, ?_, ?_⟩
  · unfold NodescryptAudit.applyLogIncident
    rw [hlog]
  · unfold NodescryptAudit.logIncidentBatch
    rw [if_pos hauth, if_pos (by simp)]
    have hstep : NodescryptAudit.batchStep sender timestamp s
        (incidentId, action, modelId) = s := by
      unfold NodescryptAudit.batchStep
      exact if_neg (fun hc => hdup hc.1)
    simp [List.foldl, hstep]
  · unfold SecurityAudit.applyLogIncident
    rw [hlogSA]
  · unfold SecurityAudit.logIncidentBatch
    rw [if_pos hpub]
    have hstep : SecurityAudit.batchStep timestamp sa incidentId = sa := by
      unfold SecurityAudit.batchStep
      exact if_neg hdupSA
    simp [List.foldl, hstep]

/-- Claim C2, witness for the amended theorem: the concrete duplicate
submission of incident id 7 to both contracts. -/
theorem C2_amended_witness :
    NodescryptAudit.logIncident
        (NodescryptAudit.applyLogIncident (NAState.init 1) 1 7 1 5 100)
        1 7 1 5 101 = .error "Incident exists" ∧
    NodescryptAudit.applyLogIncident
        (NodescryptAudit.applyLogIncident (NAState.init 1) 1 7 1 5 100)
        1 7 1 5 101 =
      NodescryptAudit.applyLogIncident (NAState.init 1) 1 7 1 5 100 ∧
    NodescryptAudit.logIncidentBatch
        (NodescryptAudit.applyLogIncident (NAState.init 1) 1 7 1 5 100)
        1 [7] [1] [5] 101 =
      .ok (NodescryptAudit.applyLogIncident (NAState.init 1) 1 7 1 5 100) ∧
    SecurityAudit.logIncident
        (SecurityAudit.applyLogIncident (SAState.init 1) 1 7 1 5 50 100)
        1 7 1 5 50 101 = .error "Already logged" ∧
    SecurityAudit.applyLogIncident
        (SecurityAudit.applyLogIncident (SAState.init 1) 1 7 1 5 50 100)
        1 7 1 5 50 101 =
      SecurityAudit.applyLogIncident (SAState.init 1) 1 7 1 5 50 100 ∧
    SecurityAudit.logIncidentBatch
        (SecurityAudit.applyLogIncident (SAState.init 1) 1 7 1 5 50 100)
        1 [7] [1] 5 [50] 101 =
      .ok ⟨(SecurityAudit.applyLogIncident (SAState.init 1) 1 7 1 5 50
              100).loggedAt,
           (SecurityAudit.applyLogIncident (SAState.init 1) 1 7 1 5 50
              100).totalIncidents,
           101,
           (SecurityAudit.applyLogIncident (SAState.init 1) 1 7 1 5 50
              100).publisher⟩ :=
  C2_amended_duplicate_reverts
    (NodescryptAudit.applyLogIncident (NAState.init 1) 1 7 1 5 100)
    (SecurityAudit.applyLogIncident (SAState.init 1) 1 7 1 5 50 100)
    1 7 1 5 50 101 (Or.inl rfl) (by decide) rfl (by decide)

/-- `Except` success test (the Solidity call succeeded iff no require
reverted). -/
def exceptIsOk : Except ε α → Bool
  | .ok _ => true
  | .error _ => false

/-- Claim C6: in both `SecurityAudit` variants, a `logIncident` call with
`action > 3` or `riskScore > 100` reverts — leaving the `loggedAt` /
`incidents` mapping, `totalIncidents` and `lastIncidentTime` unchanged —
while a call with `action ≤ 3` and `riskScore ≤ 100` for a fresh incident
id succeeds and records it. -/
theorem C6_validation (s : SAState) (t : IncoState)
    (sender incidentId action modelId riskScore timestamp : Nat)
    (hs : s.publisher sender = true)
    (ht : sender = t.owner ∨ t.authorizedAuditors sender = true) :
    ((3 < action ∨ 100 < riskScore) →
      exceptIsOk (SecurityAudit.logIncident s sender incidentId action modelId
        riskScore timestamp) = false ∧
      SecurityAudit.applyLogIncident s sender incidentId action modelId
        riskScore timestamp = s ∧
      exceptIsOk (IncoAudit.logIncident t sender incidentId action riskScore
        timestamp) = false ∧
      IncoAudit.applyLogIncident t sender incidentId action riskScore
        timestamp = t) ∧
    (action ≤ 3 → riskScore ≤ 100 → s.loggedAt incidentId = 0 →
      (t.incidents incidentId).existsFlag = false →
      SecurityAudit.logIncident s sender incidentId action modelId riskScore
          timestamp =
        .ok ⟨fun x => if x = incidentId then timestamp else s.loggedAt x,
             s.totalIncidents + 1, timestamp, s.publisher⟩ ∧
      IncoAudit.logIncident t sender incidentId action riskScore timestamp =
        .ok ⟨fun x => if x = incidentId then
               ⟨incidentId, action, riskScore, timestamp, true⟩
             else t.incidents x,
             t.totalIncidents + 1, timestamp, t.owner,
             t.authorizedAuditors⟩) := by
  constructor
  · intro hbad
    refine ⟨?_, ?_, ?_, ?_⟩
    · unfold SecurityAudit.logIncident
      split_ifs with h1 h2 h3 <;> first
        | rfl
        | (rcases hbad with h | h <;> omega)
    · unfold SecurityAudit.applyLogIncident SecurityAudit.logIncident
      split_ifs with h1 h2 h3 <;> first
        | rfl
        | (rcases hbad with h | h <;> omega)
    · unfold IncoAudit.logIncident
      split_ifs with h1 h2 h3 <;> first
        | rfl
        | (rcases hbad with h | h <;> omega)
    · unfold IncoAudit.applyLogIncident IncoAudit.logIncident
      split_ifs with h1 h2 h3 <;> first
        | rfl
        | (rcases hbad with h | h <;> omega)
  · intro hact hrisk hfresh tfresh
    constructor
    · unfold SecurityAudit.logIncident
      rw [if_pos hs, if_pos hfresh, if_pos hact, if_pos hrisk]
    · unfold IncoAudit.logIncident
      rw [if_pos ht, if_pos (by simp [tfresh]), if_pos hact, if_pos hrisk]

/-- Claim C6, witness: on freshly deployed contracts (admin/owner is
address 1), action 5 is rejected with state unchanged, and action 1 with
risk score 50 on fresh id 7 is recorded in both variants. -/
theorem C6_validation_witness :
    (exceptIsOk (SecurityAudit.logIncident (SAState.init 1) 1 7 5 9 200 100)
        = false ∧
      SecurityAudit.applyLogIncident (SAState.init 1) 1 7 5 9 200 100 =
        SAState.init 1 ∧
      exceptIsOk (IncoAudit.logIncident (IncoState.init 1) 1 7 5 200 100)
        = false ∧
      IncoAudit.applyLogIncident (IncoState.init 1) 1 7 5 200 100 =
        IncoState.init 1) ∧
    (SecurityAudit.logIncident (SAState.init 1) 1 7 1 9 50 100 =
        .ok ⟨fun x => if x = 7 then 100 else (SAState.init 1).loggedAt x,
             (SAState.init 1).totalIncidents + 1, 100,
             (SAState.init 1).publisher⟩ ∧
      IncoAudit.logIncident (IncoState.init 1) 1 7 1 50 100 =
        .ok ⟨fun x => if x = 7 then ⟨7, 1, 50, 100, true⟩
               else (IncoState.init 1).incidents x,
             (IncoState.init 1).totalIncidents + 1, 100,
             (IncoState.init 1).owner,
             (IncoState.init 1).authorizedAuditors⟩) :=
  ⟨(C6_validation (SAState.init 1) (IncoState.init 1) 1 7 5 9 200 100
      rfl (Or.inl rfl)).1 (Or.inl (by decide)),
   (C6_validation (SAState.init 1) (IncoState.init 1) 1 7 1 9 50 100
      rfl (Or.inl rfl)).2 (by decide) (by decide) rfl rfl⟩

/-- Claim C7: `decideAction` is deterministic — its output is a function
of the filtering flag, the spam score and the MEV risk alone, so two
invocations on the same analysis input (in particular `decide(s)` called
twice on a fixed `s`) return the same action; there is no randomness on
the serving path. -/
theorem C7_decide_deterministic (flag : Bool) (a b : Analysis)
    (hs : a.spam_score = b.spam_score) (hm : a.mev_risk = b.mev_risk) :
    decideAction flag a = decideAction flag b := by
  simp [decideAction, hs, hm]

/-- Claim C7, witness: two analyses agreeing on the scores (differing in
`risk_level`) decide identically. -/
theorem C7_decide_witness :
    decideAction true ⟨.num (mkRat 1 2), .num 0, .LOW⟩ =
      decideAction true ⟨.num (mkRat 1 2), .num 0, .HIGH⟩ :=
  C7_decide_deterministic true ⟨.num (mkRat 1 2), .num 0, .LOW⟩
    ⟨.num (mkRat 1 2), .num 0, .HIGH⟩ rfl rfl

/-- Claim C8 (spec-modelled mitigation engine): every action sequence
ending in `DO_NOTHING` drives the MitigationState back to the `NORMAL`
baseline `{mode: NORMAL, min_fee: baseline, delay_ms: 0}`; in particular
`DEFENSIVE_MODE, DEFENSIVE_MODE, DO_NOTHING` does. -/
theorem C8_reversibility (baseline : ℚ) (s : MitigationState)
    (acts : List Action) :
    List.foldl (applyAction baseline) s (acts ++ [Action.DO_NOTHING]) =
      baselineState baseline ∧
    List.foldl (applyAction baseline) s
      [Action.DEFENSIVE_MODE, Action.DEFENSIVE_MODE, Action.DO_NOTHING] =
      baselineState baseline := by
  constructor
  · rw [List.foldl_append]
    rfl
  · rfl

/-- Invariant preservation for one `logIncidentBatch` loop iteration. -/
theorem NodescryptAudit.inv_batchStep (sender timestamp : Nat) (s : NAState)
    (e : Nat × Nat × Nat) (h : NodescryptAudit.Inv s) :
    NodescryptAudit.Inv (NodescryptAudit.batchStep sender timestamp s e) := by
  obtain ⟨h1, h2⟩ := h
  unfold NodescryptAudit.batchStep
  split
  · constructor
    · simp [h1]
    · dsimp only
      split_ifs <;> omega
  · exact ⟨h1, h2⟩

/-- Invariant preservation along the whole `logIncidentBatch` loop. -/
theorem NodescryptAudit.inv_foldl (sender timestamp : Nat) :
    ∀ (l : List (Nat × Nat × Nat)) (s : NAState), NodescryptAudit.Inv s →
      NodescryptAudit.Inv
        (List.foldl (NodescryptAudit.batchStep sender timestamp) s l)
  | [], _, h => h
  | e :: rest, s, h =>
      NodescryptAudit.inv_foldl sender timestamp rest _
        (NodescryptAudit.inv_batchStep sender timestamp s e h)

/-- Claim C9: the `NodescryptAudit` invariant
`totalIncidents = incidentIds.length ∧ totalDropped + totalDelayed ≤
totalIncidents` holds after the constructor and is preserved by every
`logIncident` and `logIncidentBatch` transaction — including batches that
silently skip duplicate ids or actions greater than 3. -/
theorem C9_audit_invariant :
    (∀ deployer, NodescryptAudit.Inv (NAState.init deployer)) ∧
    (∀ s sender incidentId action modelId timestamp, NodescryptAudit.Inv s →
      NodescryptAudit.Inv (NodescryptAudit.applyLogIncident s sender
        incidentId action modelId timestamp)) ∧
    (∀ s sender ids actions modelIds timestamp, NodescryptAudit.Inv s →
      NodescryptAudit.Inv (NodescryptAudit.applyLogIncidentBatch s sender
        ids actions modelIds timestamp)) := by
  refine ⟨fun _ => ⟨rfl, Nat.le_refl 0⟩, ?_, ?_⟩
  · intro s sender incidentId action modelId timestamp h
    obtain ⟨h1, h2⟩ := h
    unfold NodescryptAudit.applyLogIncident NodescryptAudit.logIncident
    split_ifs <;>
      first
        | exact ⟨h1, h2⟩
        | exact ⟨by dsimp only; simp [h1], by dsimp only; omega⟩
  · intro s sender ids actions modelIds timestamp h
    unfold NodescryptAudit.applyLogIncidentBatch
    cases hres : NodescryptAudit.logIncidentBatch s sender ids actions
        modelIds timestamp with
    | error e => exact h
    | ok s2 =>
        unfold NodescryptAudit.logIncidentBatch at hres
        split_ifs at hres with ha hb
        cases hres
        exact NodescryptAudit.inv_foldl sender timestamp _ s h

/-- Claim C9, witness: the invariant holds initially and after a single
log of a DROP incident and after a batch containing a duplicate id and an
invalid action. -/
theorem C9_audit_witness :
    NodescryptAudit.Inv (NAState.init 1) ∧
    NodescryptAudit.Inv
      (NodescryptAudit.applyLogIncident (NAState.init 1) 1 7 2 5 100) ∧
    NodescryptAudit.Inv
      (NodescryptAudit.applyLogIncidentBatch (NAState.init 1) 1
        [7, 7, 8] [1, 1, 9] [5, 5, 5] 100) :=
  ⟨C9_audit_invariant.1 1,
   C9_audit_invariant.2.1 (NAState.init 1) 1 7 2 5 100
     (C9_audit_invariant.1 1),
   C9_audit_invariant.2.2 (NAState.init 1) 1 [7, 7, 8] [1, 1, 9] [5, 5, 5]
     100 (C9_audit_invariant.1 1)⟩

/-- Claim C10: `detectTokenTransfer` is total and selector-determined —
nullish or short (< 10 characters) input yields `is_erc20 = is_erc721 =
false`; otherwise the result depends only on the lower-cased first ten
characters, with `is_erc20` true exactly for the
transfer/approve/transferFrom selectors and `is_erc721` true exactly for
the two ERC-721 transfer selectors. -/
theorem C10_detect_selector (d e : String)
    (hd : 10 ≤ d.data.length) (he : 10 ≤ e.data.length)
    (heq : (d.data.take 10).map Char.toLower =
           (e.data.take 10).map Char.toLower) :
    detectTokenTransfer (some d) = detectTokenTransfer (some e) ∧
    detectTokenTransfer none = ⟨false, false, none⟩ ∧
    (∀ g : String, g.data.length < 10 →
      detectTokenTransfer (some g) = ⟨false, false, none⟩) ∧
    ((detectTokenTransfer (some d)).is_erc20 = true ↔
      ((d.data.take 10).map Char.toLower = ERC20_TRANSFER.data ∨
       (d.data.take 10).map Char.toLower = ERC20_APPROVE.data ∨
       (d.data.take 10).map Char.toLower = ERC20_TRANSFER_FROM.data)) ∧
    ((detectTokenTransfer (some d)).is_erc721 = true ↔
      ((d.data.take 10).map Char.toLower = ERC721_SAFE_TRANSFER.data ∨
       (d.data.take 10).map Char.toLower = ERC721_TRANSFER.data)) := by
  refine ⟨?_, rfl, ?_, ?_, ?_⟩
  · unfold detectTokenTransfer
    dsimp only
    rw [if_neg (Nat.not_lt.mpr hd), if_neg (Nat.not_lt.mpr he), heq]
  · intro g hg
    unfold detectTokenTransfer
    dsimp only
    rw [if_pos hg]
  · unfold detectTokenTransfer
    dsimp only
    rw [if_neg (Nat.not_lt.mpr hd)]
    simp
  · unfold detectTokenTransfer
    dsimp only
    rw [if_neg (Nat.not_lt.mpr hd)]
    simp

/-- Claim C10, witness: two inputs sharing the lower-cased `transfer`
selector (one upper-cased, one lower-cased with a different tail) detect
identically and as ERC-20. -/
theorem C10_detect_witness :
    detectTokenTransfer (some "0xA9059CBB1111") =
      detectTokenTransfer (some "0xa9059cbb2222") ∧
    (detectTokenTransfer (some "0xA9059CBB1111")).is_erc20 = true ∧
    detectTokenTransfer (some "0x") = ⟨false, false, none⟩ :=
  ⟨(C10_detect_selector "0xA9059CBB1111" "0xa9059cbb2222"
      (by decide) (by decide) (by decide)).1,
   ((C10_detect_selector "0xA9059CBB1111" "0xa9059cbb2222"
      (by decide) (by decide) (by decide)).2.2.2.1).mpr (Or.inl (by decide)),
   (C10_detect_selector "0xA9059CBB1111" "0xa9059cbb2222"
      (by decide) (by decide) (by decide)).2.2.1 "0x" (by decide)⟩

end NodesCrypt
